import Mathlib

/-!
Verification of the core data transformations of the walkability dashboard
(src/streamlit_app.py): the path-geometry coordinate parser
(parse_and_convert_coordinates and its batch wrapper load_data) and the
pedestrian quarter-hour aggregator (process_pedestrian_data_per_quarter_hour
with its helpers parse_id_list_from_string and aggregate_unique_ids).

Modelling conventions:
  - Python values that can flow through the relevant code paths are modelled
    by the inductive PyLit (ints, floats, strings, booleans, None, lists,
    tuples).  Pandas NaN cells are modelled as PyLit.none, since the code
    only tests them with pd.isna.
  - Python floats are modelled exactly as rationals: the code only parses
    decimal literals and carries the values through unchanged, so no
    floating-point rounding is observable in the properties below.
  - ast.literal_eval is modelled by a recursive-descent parser over the
    literal sublanguage that can actually occur in the data files: signed
    int and decimal float literals, single- and double-quoted strings
    (without escape sequences), True, False, None, lists and tuples
    (including trailing commas, the empty tuple and the one-element tuple).
    A bare identifier other than True/False/None is a Name node, on which
    ast.literal_eval raises ValueError; unstructured input raises
    SyntaxError.  Both are modelled as PyExcKind values.
  - Exceptions are modelled with Except; a try/except block is a match on
    the Except value.  Streamlit diagnostics (st.error / st.warning) are
    modelled as an explicit list of Diag values returned alongside the
    result.
-/

/-- Whitespace characters recognised by Python str.strip and the tokenizer. -/
def isPySpace (c : Char) : Bool :=
  c = ' ' || c = Char.ofNat 9 || c = Char.ofNat 10 || c = Char.ofNat 13 ||
  c = Char.ofNat 11 || c = Char.ofNat 12

/-- Drop leading whitespace. -/
def skipWs : List Char → List Char
  | [] => []
  | c :: cs => if isPySpace c then skipWs cs else c :: cs

/-- Longest prefix of decimal digits, together with the rest. -/
def takeDigits : List Char → List Char × List Char
  | [] => ([], [])
  | c :: cs =>
    if c.isDigit then
      let (d, r) := takeDigits cs
      (c :: d, r)
    else ([], c :: cs)

/-- Numeric value of a digit string. -/
def digitsVal (ds : List Char) : Nat :=
  ds.foldl (fun a c => 10 * a + (c.toNat - 48)) 0

/-- Python str.strip: remove whitespace from both ends. -/
def pyStrip (cs : List Char) : List Char :=
  (skipWs (skipWs cs).reverse).reverse

/-- The double-quote character. -/
def dquo : Char := Char.ofNat 34

/-- The single-quote character. -/
def squo : Char := Char.ofNat 39

/-- Python literal values, as produced by ast.literal_eval. -/
inductive PyLit where
  | int : Int → PyLit
  | float : ℚ → PyLit
  | str : String → PyLit
  | bool : Bool → PyLit
  | none : PyLit
  | list : List PyLit → PyLit
  | tuple : List PyLit → PyLit

/-- The exception classes that the modelled library calls can raise and that
the source catches: except (SyntaxError, ValueError, TypeError). -/
inductive PyExcKind where
  | syntaxError : PyExcKind
  | valueError : PyExcKind
  | typeError : PyExcKind
deriving DecidableEq

/-- Longest prefix of ASCII letters. -/
def takeAlpha : List Char → List Char × List Char
  | [] => ([], [])
  | c :: cs =>
    if c.isAlpha then
      let (d, r) := takeAlpha cs
      (c :: d, r)
    else ([], c :: cs)

/-- Characters of a quoted string up to the closing quote. -/
def takeUntil (q : Char) : List Char → Option (List Char × List Char)
  | [] => Option.none
  | c :: cs =>
    if c = q then some ([], cs)
    else
      match takeUntil q cs with
      | some (s, r) => some (c :: s, r)
      | Option.none => Option.none

/-- One numeric token: digits with an optional fractional part.  A dot makes
it a float, otherwise it is an int. -/
def parseNumTok (cs : List Char) : Except PyExcKind (PyLit × List Char) :=
  let (ip, r1) := takeDigits cs
  match r1 with
  | c :: r2 =>
    if c = Char.ofNat 46 then
      let (fp, r3) := takeDigits r2
      if ip.length = 0 && fp.length = 0 then .error .syntaxError
      else
        .ok (.float (mkRat (digitsVal ip * 10 ^ fp.length + digitsVal fp) (10 ^ fp.length)), r3)
    else if ip.length = 0 then .error .syntaxError
    else .ok (.int (digitsVal ip), c :: r2)
  | [] =>
    if ip.length = 0 then .error .syntaxError
    else .ok (.int (digitsVal ip), [])

/-- Negate a numeric literal (unary minus in a literal expression). -/
def negLit : PyLit → Except PyExcKind PyLit
  | .int n => .ok (.int (-n))
  | .float q => .ok (.float (mkRat (-q.num) q.den))
  | _ => .error .valueError

mutual

/-- One literal value, fuel-bounded recursive descent.  Mirrors the grammar
accepted by ast.literal_eval on the data that can occur here. -/
def parseVal : Nat → List Char → Except PyExcKind (PyLit × List Char)
  | 0, _ => .error .syntaxError
  | fuel + 1, cs =>
    match skipWs cs with
    | [] => .error .syntaxError
    | c :: rest =>
      if c = '[' then
        match parseSeq fuel ']' rest with
        | .ok (els, r) => .ok (.list els, r)
        | .error e => .error e
      else if c = '(' then
        match skipWs rest with
        | ')' :: r2 => .ok (.tuple [], r2)
        | _ =>
          match parseVal fuel rest with
          | .error e => .error e
          | .ok (v, r2) =>
            match skipWs r2 with
            | [] => .error .syntaxError
            | c2 :: r3 =>
              if c2 = ')' then .ok (v, r3)
              else if c2 = ',' then
                match skipWs r3 with
                | ')' :: r4 => .ok (.tuple [v], r4)
                | _ =>
                  match parseSeq fuel ')' r3 with
                  | .ok (els, r4) => .ok (.tuple (v :: els), r4)
                  | .error e => .error e
              else .error .syntaxError
      else if c = dquo || c = squo then
        match takeUntil c rest with
        | some (s, r) => .ok (.str (String.mk s), r)
        | Option.none => .error .syntaxError
      else if c = '-' then
        match parseNumTok (skipWs rest) with
        | .ok (v, r) =>
          match negLit v with
          | .ok w => .ok (w, r)
          | .error e => .error e
        | .error e => .error e
      else if c = '+' then parseNumTok (skipWs rest)
      else if c.isDigit || c = Char.ofNat 46 then parseNumTok (c :: rest)
      else if c.isAlpha then
        let (w, r) := takeAlpha (c :: rest)
        if w = ['T', 'r', 'u', 'e'] then .ok (.bool true, r)
        else if w = ['F', 'a', 'l', 's', 'e'] then .ok (.bool false, r)
        else if w = ['N', 'o', 'n', 'e'] then .ok (.none, r)
        else .error .valueError
      else .error .syntaxError

/-- Comma-separated literal values up to a closing bracket; a trailing comma
is allowed, as in Python display literals. -/
def parseSeq : Nat → Char → List Char → Except PyExcKind (List PyLit × List Char)
  | 0, _, _ => .error .syntaxError
  | fuel + 1, close, cs =>
    match skipWs cs with
    | [] => .error .syntaxError
    | c :: rest =>
      if c = close then .ok ([], rest)
      else
        match parseVal fuel (c :: rest) with
        | .error e => .error e
        | .ok (v, r2) =>
          match skipWs r2 with
          | [] => .error .syntaxError
          | c2 :: r3 =>
            if c2 = close then .ok ([v], r3)
            else if c2 = ',' then
              match parseSeq fuel close r3 with
              | .ok (els, r4) => .ok (v :: els, r4)
              | .error e => .error e
            else .error .syntaxError

end

/-- Model of ast.literal_eval restricted to the literal sublanguage the data
files use.  SyntaxError for unstructured text, ValueError for a Name node. -/
def literal_eval (s : String) : Except PyExcKind PyLit :=
  let cs := s.toList
  match parseVal (2 * cs.length + 4) cs with
  | .ok (v, rest) =>
    match skipWs rest with
    | [] => .ok v
    | _ :: _ => .error .syntaxError
  | .error e => .error e

/-- Truncation toward zero, the behaviour of the int builtin on a float. -/
def ratTrunc (q : ℚ) : Int :=
  Int.tdiv q.num (q.den : Int)

/-- Integer value of a stripped decimal string, as the int builtin accepts it:
an optional sign followed by digits only. -/
def parseIntStr (s : String) : Option Int :=
  match pyStrip s.toList with
  | [] => Option.none
  | c :: rest =>
    let (sgn, body) : Int × List Char :=
      if c = '-' then (-1, rest) else if c = '+' then (1, rest) else (1, c :: rest)
    match takeDigits body with
    | (ds, r) =>
      if ds.length ≠ 0 && r.isEmpty then some (sgn * (digitsVal ds : Int))
      else Option.none

/-- Rational value of a stripped decimal string, as the float builtin accepts
it on the decimal forms occurring here: optional sign, digits, optional dot
and fractional digits. -/
def parseFloatStr (s : String) : Option ℚ :=
  match pyStrip s.toList with
  | [] => Option.none
  | c :: rest =>
    let (sgn, body) : Int × List Char :=
      if c = '-' then (-1, rest) else if c = '+' then (1, rest) else (1, c :: rest)
    match takeDigits body with
    | (ip, r1) =>
      match r1 with
      | [] =>
        if ip.length = 0 then Option.none
        else some (mkRat (sgn * (digitsVal ip : Int)) 1)
      | d :: r2 =>
        if d = Char.ofNat 46 then
          match takeDigits r2 with
          | (fp, r3) =>
            if (ip.length = 0 && fp.length = 0) || !r3.isEmpty then Option.none
            else
              some (mkRat (sgn * ((digitsVal ip * 10 ^ fp.length + digitsVal fp : Nat) : Int))
                (10 ^ fp.length))
        else Option.none

/-- Model of the float builtin on a Python value: succeeds on ints, floats,
booleans and numeric strings; ValueError/TypeError otherwise (the caller
catches both, so Option suffices). -/
def pyFloat : PyLit → Option ℚ
  | .int n => some (mkRat n 1)
  | .float q => some q
  | .bool b => some (mkRat (if b then 1 else 0) 1)
  | .str s => parseFloatStr s
  | _ => Option.none

/-- Model of the int builtin on a Python value: ints, floats (truncated),
booleans and integer strings; ValueError/TypeError otherwise. -/
def pyInt : PyLit → Option Int
  | .int n => some n
  | .float q => some (ratTrunc q)
  | .bool b => some (if b then 1 else 0)
  | .str s => parseIntStr s
  | _ => Option.none

/-- The diagnostics the coordinate parser emits through st.error/st.warning. -/
inductive Diag where
  | parseError : String → Diag
  | notAList : String → Diag
  | nonNumericElement : Diag
  | malformedElement : Diag
deriving DecidableEq

/-- isinstance(item, (list, tuple)) and len(item) == 2, returning the two
components. -/
def isPair : PyLit → Option (PyLit × PyLit)
  | .list [a, b] => some (a, b)
  | .tuple [a, b] => some (a, b)
  | _ => Option.none

/-- The per-element loop of parse_and_convert_coordinates: each well-shaped
pair with float-convertible components yields the swapped point (lat, lon);
a conversion failure or a malformed element is skipped with a diagnostic. -/
def convertItems : List PyLit → List (ℚ × ℚ) × List Diag
  | [] => ([], [])
  | item :: rest =>
    let (pts, ds) := convertItems rest
    match isPair item with
    | some (a, b) =>
      match pyFloat b, pyFloat a with
      | some lat, some lon => ((lat, lon) :: pts, ds)
      | _, _ => (pts, Diag.nonNumericElement :: ds)
    | Option.none => (pts, Diag.malformedElement :: ds)

/-- The try-block body of parse_and_convert_coordinates: literal_eval the
string, reject non-lists with a diagnostic, convert the elements.  Errors of
literal_eval propagate out of this body. -/
def parse_and_convert_body (s : String) :
    Except PyExcKind (List (ℚ × ℚ) × List Diag) :=
  match literal_eval s with
  | .error e => .error e
  | .ok v =>
    match v with
    | .list items => .ok (convertItems items)
    | _ => .ok ([], [Diag.notAList s])

/-- The exception classes named in the except clause of
parse_and_convert_coordinates: (SyntaxError, ValueError, TypeError). -/
def caught : PyExcKind → Bool
  | .syntaxError => true
  | .valueError => true
  | .typeError => true

/-- parse_and_convert_coordinates on an arbitrary Python value: a non-string
or blank string returns no points and no diagnostics; otherwise the body
runs and a caught exception becomes an empty result plus an error
diagnostic.  An uncaught exception would surface as Except.error. -/
def parse_and_convert_coordinates (coord : PyLit) :
    Except PyExcKind (List (ℚ × ℚ) × List Diag) :=
  match coord with
  | .str s =>
    if s.toList.all isPySpace then .ok ([], [])
    else
      match parse_and_convert_body s with
      | .ok r => .ok r
      | .error e => if caught e then .ok ([], [Diag.parseError s]) else .error e
  | _ => .ok ([], [])

/-- One row of the segment path file after load_data coerced segment_id to
str and filled NaN coordinate cells with the empty string. -/
structure PathRow where
  segment_id : String
  coordinates_str : String
deriving DecidableEq

/-- The locations column: the point list computed for one row.  The error
arm is unreachable, since every modelled exception kind is caught. -/
def row_locations (r : PathRow) : List (ℚ × ℚ) :=
  match parse_and_convert_coordinates (PyLit.str r.coordinates_str) with
  | .ok (pts, _) => pts
  | .error _ => []

/-- The failed-parsing mask of load_data: zero points although the original
string was not blank. -/
def failed_parsing (rows : List PathRow) : List PathRow :=
  rows.filter (fun r =>
    decide ((row_locations r).length = 0) && !(r.coordinates_str.toList.all isPySpace))

/-- The successful rows load_data keeps: at least one parsed point. -/
def processed_path (rows : List PathRow) : List PathRow :=
  rows.filter (fun r => decide (0 < (row_locations r).length))

/-- load_data itemizes at most the first 10 failed rows. -/
def displayed_failures (rows : List PathRow) : List PathRow :=
  (failed_parsing rows).take 10

/-- Number of failed rows reported by load_data. -/
def num_failed (rows : List PathRow) : Nat :=
  (failed_parsing rows).length

/-- The overflow message of load_data: shown only when more than 10 rows
failed, reporting the number of additional failures. -/
def overflow_report (rows : List PathRow) : Option Nat :=
  if 10 < num_failed rows then some (num_failed rows - 10) else Option.none

/-- Minutes since midnight for a string matched against the strptime format
H:M — one or two digits for the hour (0..23), a colon, one or two digits for
the minute (0..59), nothing else. -/
def parseTimeHM (s : String) : Option Nat :=
  match takeDigits s.toList with
  | (hd, r1) =>
    if hd.length = 0 || 2 < hd.length then Option.none
    else
      match r1 with
      | [] => Option.none
      | c :: r2 =>
        if c = ':' then
          match takeDigits r2 with
          | (md, r3) =>
            if md.length = 0 || 2 < md.length || !r3.isEmpty then Option.none
            else
              let h := digitsVal hd
              let m := digitsVal md
              if h ≤ 23 && m ≤ 59 then some (60 * h + m) else Option.none
        else Option.none

/-- dt.floor on 15-minute intervals: the latest quarter-hour boundary that is
not after the given minute of the day. -/
def floor15 (m : Nat) : Nat := m - m % 15

/-- One row of the pedestrian event file as read with sep=";": a segment
identifier, the time_rounded text and the persons cell (PyLit.none models a
NaN cell). -/
structure PedRow where
  segment_id : Int
  time_rounded : String
  persons : PyLit

/-- One output row of the aggregator, with the bucket start in minutes since
midnight. -/
structure BucketRow where
  segment_id : Int
  timestamp_quarter : Nat
  unique_pedestrian_count : Nat
deriving DecidableEq

/-- pd.to_datetime over the whole time_rounded column with errors raised:
yields all parsed times, or fails as a whole if any row fails. -/
def timesOf : List PedRow → Option (List Nat)
  | [] => some []
  | r :: rs =>
    match parseTimeHM r.time_rounded, timesOf rs with
    | some t, some ts => some (t :: ts)
    | _, _ => Option.none

/-- The comprehension [int(pid) for pid in ids]: all converted values, or a
failure of the whole comprehension if any element fails. -/
def intsOf : List PyLit → Option (List Int)
  | [] => some []
  | x :: xs =>
    match pyInt x, intsOf xs with
    | some n, some ns => some (n :: ns)
    | _, _ => Option.none

/-- parse_id_list_from_string: NaN, a non-string or a blank string yield [];
a literal_eval failure yields []; a literal that is not a list yields []; a
list with any element the int builtin rejects yields [] (the comprehension
raises and the except clause returns []). -/
def parse_id_list_from_string (cell : PyLit) : List Int :=
  match cell with
  | .str s =>
    if s.toList.all isPySpace then []
    else
      match literal_eval s with
      | .error _ => []
      | .ok (.list ids) =>
        match intsOf ids with
        | some ns => ns
        | Option.none => []
      | .ok _ => []
  | _ => []

/-- Each row tagged with its group key (segment_id, floored time) and its
parsed identifier list. -/
def taggedRows (rows : List PedRow) (ts : List Nat) :
    List ((Int × Nat) × List Int) :=
  (rows.zip ts).map (fun rt =>
    ((rt.1.segment_id, floor15 rt.2), parse_id_list_from_string rt.1.persons))

/-- The parsed_ids series handed to the aggregation function for one group. -/
def groupLists (tagged : List ((Int × Nat) × List Int)) (k : Int × Nat) :
    List (List Int) :=
  (tagged.filter (fun x => decide (x.1 = k))).map Prod.snd

/-- aggregate_unique_ids: concatenate the lists of the group and return the
length of the concatenation (the dedup step of the source is commented out);
an empty series or an empty concatenation returns 0. -/
def aggregate_unique_ids (ls : List (List Int)) : Nat :=
  if ls.isEmpty then 0
  else
    let combined := ls.foldl (fun acc l => acc ++ l) []
    if combined.isEmpty then 0 else combined.length

/-- Ordering used by the groupby and the final sort_values: ascending on
segment_id, then on the bucket start. -/
def keyLe (a b : Int × Nat) : Bool :=
  decide (a.1 < b.1) || (decide (a.1 = b.1) && decide (a.2 ≤ b.2))

/-- Insertion step of the key sort. -/
def insertKey (k : Int × Nat) : List (Int × Nat) → List (Int × Nat)
  | [] => [k]
  | h :: t => if keyLe k h then k :: h :: t else h :: insertKey k t

/-- Insertion sort of the group keys. -/
def sortKeys (l : List (Int × Nat)) : List (Int × Nat) :=
  l.foldr insertKey []

/-- The output record for one group key. -/
def bucketFor (tagged : List ((Int × Nat) × List Int)) (k : Int × Nat) :
    BucketRow :=
  ⟨k.1, k.2, aggregate_unique_ids (groupLists tagged k)⟩

/-- process_pedestrian_data_per_quarter_hour on an in-memory table: if any
time_rounded cell fails to parse, pd.to_datetime raises, the generic except
clause catches it and the whole result is the empty table.  Otherwise one
record per distinct (segment_id, quarter) key, sorted ascending. -/
def process_pedestrian_data_per_quarter_hour (rows : List PedRow) :
    List BucketRow :=
  match timesOf rows with
  | Option.none => []
  | some ts =>
    (sortKeys ((taggedRows rows ts).map Prod.fst).dedup).map
      (bucketFor (taggedRows rows ts))

/-- A numeric literal in the sense of the valid-encoding claim: an int or a
float constant. -/
def numOk : PyLit → Bool
  | .int _ => true
  | .float _ => true
  | _ => false

/-- The float value of a numeric literal (0 on other shapes, never used
there). -/
def numValD : PyLit → ℚ
  | .int n => mkRat n 1
  | .float q => q
  | _ => 0

/-- The point a well-formed 2-tuple element is mapped to: components
converted to float and swapped from (lon, lat) to (lat, lon). -/
def itemPoint : PyLit → ℚ × ℚ
  | .tuple [a, b] => (numValD b, numValD a)
  | _ => (0, 0)

/-! ### Helper lemmas -/

theorem skipWs_of_all_space : ∀ cs : List Char, cs.all isPySpace = true → skipWs cs = []
  | [], _ => rfl
  | c :: cs, h => by
    rw [List.all_cons, Bool.and_eq_true] at h
    simp [skipWs, h.1, skipWs_of_all_space cs h.2]

theorem parseVal_blank (fuel : Nat) (cs : List Char) (h : skipWs cs = []) :
    parseVal fuel cs = .error PyExcKind.syntaxError := by
  cases fuel with
  | zero => rfl
  | succ f => simp [parseVal, h]

theorem literal_eval_ok_not_blank {s : String} {v : PyLit}
    (h : literal_eval s = .ok v) : s.toList.all isPySpace = false := by
  by_contra hb
  have hb' : s.toList.all isPySpace = true := by
    cases hx : s.toList.all isPySpace with
    | true => rfl
    | false => exact absurd hx hb
  have hw : skipWs s.toList = [] := skipWs_of_all_space _ hb'
  rw [literal_eval, parseVal_blank _ _ hw] at h
  exact Except.noConfusion h

theorem timesOf_zip : ∀ (rows : List PedRow) (ts : List Nat) (r : PedRow) (t : Nat),
    timesOf rows = some ts → (r, t) ∈ rows.zip ts →
    parseTimeHM r.time_rounded = some t
  | [], ts, r, t, _, hm => by simp [List.zip] at hm
  | r0 :: rs, ts, r, t, hto, hm => by
    rw [timesOf] at hto
    cases h0 : parseTimeHM r0.time_rounded with
    | none => rw [h0] at hto; exact Option.noConfusion hto
    | some t0 =>
      rw [h0] at hto
      cases hrest : timesOf rs with
      | none => rw [hrest] at hto; exact Option.noConfusion hto
      | some ts0 =>
        rw [hrest] at hto
        have hts : ts = t0 :: ts0 := by
          simpa using hto.symm
        subst hts
        rw [List.zip_cons_cons] at hm
        rcases List.mem_cons.mp hm with heq | htail
        · have h1 : r = r0 := congrArg Prod.fst heq
          have h2 : t = t0 := congrArg Prod.snd heq
          rw [h1, h2]; exact h0
        · exact timesOf_zip rs ts0 r t hrest htail

theorem timesOf_none : ∀ (rows : List PedRow) (r : PedRow),
    r ∈ rows → parseTimeHM r.time_rounded = Option.none →
    timesOf rows = Option.none
  | [], r, hm, _ => absurd hm (List.not_mem_nil r)
  | r0 :: rs, r, hm, hn => by
    rcases List.mem_cons.mp hm with heq | htail
    · subst heq
      rw [timesOf, hn]
    · rw [timesOf, timesOf_none rs r htail hn]
      cases parseTimeHM r0.time_rounded <;> rfl

theorem mem_insertKey (a k : Int × Nat) : ∀ l : List (Int × Nat),
    a ∈ insertKey k l ↔ a = k ∨ a ∈ l
  | [] => by simp [insertKey]
  | h :: t => by
    rw [insertKey]
    by_cases hle : keyLe k h = true
    · simp only [if_pos hle]
      constructor
      · intro hm
        rcases List.mem_cons.mp hm with h1 | h2
        · exact Or.inl h1
        · exact Or.inr h2
      · intro hm
        rcases hm with h1 | h2
        · exact List.mem_cons.mpr (Or.inl h1)
        · exact List.mem_cons.mpr (Or.inr h2)
    · simp only [if_neg hle]
      constructor
      · intro hm
        rcases List.mem_cons.mp hm with h1 | h2
        · exact Or.inr (List.mem_cons.mpr (Or.inl h1))
        · rcases (mem_insertKey a k t).mp h2 with h3 | h4
          · exact Or.inl h3
          · exact Or.inr (List.mem_cons.mpr (Or.inr h4))
      · intro hm
        rcases hm with h1 | h2
        · exact List.mem_cons.mpr (Or.inr ((mem_insertKey a k t).mpr (Or.inl h1)))
        · rcases List.mem_cons.mp h2 with h3 | h4
          · exact List.mem_cons.mpr (Or.inl h3)
          · exact List.mem_cons.mpr (Or.inr ((mem_insertKey a k t).mpr (Or.inr h4)))

theorem mem_sortKeys (a : Int × Nat) : ∀ l : List (Int × Nat),
    a ∈ sortKeys l ↔ a ∈ l
  | [] => by simp [sortKeys]
  | h :: t => by
    rw [sortKeys, List.foldr_cons]
    rw [mem_insertKey]
    rw [show t.foldr insertKey [] = sortKeys t from rfl, mem_sortKeys a t]
    simp [List.mem_cons]

theorem foldl_append_eq_flatten : ∀ (ls : List (List Int)) (init : List Int),
    ls.foldl (fun acc l => acc ++ l) init = init ++ ls.flatten
  | [], init => by simp
  | l :: ls, init => by
    rw [List.foldl_cons, foldl_append_eq_flatten ls (init ++ l), List.flatten_cons,
      List.append_assoc]

theorem aggregate_unique_ids_eq_flatten_length (ls : List (List Int)) :
    aggregate_unique_ids ls = ls.flatten.length := by
  rw [aggregate_unique_ids]
  by_cases he : ls.isEmpty
  · rw [if_pos he]
    rw [List.isEmpty_iff] at he
    subst he
    rfl
  · rw [if_neg he]
    have hc : ls.foldl (fun acc l => acc ++ l) [] = ls.flatten := by
      rw [foldl_append_eq_flatten, List.nil_append]
    rw [hc]
    by_cases hj : ls.flatten.isEmpty
    · rw [if_pos hj]
      rw [List.isEmpty_iff] at hj
      rw [hj]
      rfl
    · rw [if_neg hj]

theorem flatten_eq_nil_of_all_nil : ∀ ls : List (List Int),
    (∀ l ∈ ls, l = []) → ls.flatten = []
  | [], _ => rfl
  | l :: ls, h => by
    rw [List.flatten_cons, h l (List.mem_cons_self l ls),
      flatten_eq_nil_of_all_nil ls (fun x hx => h x (List.mem_cons_of_mem l hx)),
      List.nil_append]

theorem intsOf_none_of_mem : ∀ (xs : List PyLit) (x : PyLit),
    x ∈ xs → pyInt x = Option.none → intsOf xs = Option.none
  | [], x, hm, _ => absurd hm (List.not_mem_nil x)
  | x0 :: xs, x, hm, hn => by
    rcases List.mem_cons.mp hm with heq | htail
    · subst heq
      rw [intsOf, hn]
    · rw [intsOf, intsOf_none_of_mem xs x htail hn]
      cases pyInt x0 <;> rfl

theorem bucketFor_mem_process {rows : List PedRow} {ts : List Nat} {k : Int × Nat}
    (hto : timesOf rows = some ts)
    (hk : k ∈ (taggedRows rows ts).map Prod.fst) :
    bucketFor (taggedRows rows ts) k ∈ process_pedestrian_data_per_quarter_hour rows := by
  rw [process_pedestrian_data_per_quarter_hour, hto]
  exact List.mem_map_of_mem _ ((mem_sortKeys _ _).mpr (List.mem_dedup.mpr hk))

theorem pyFloat_of_numOk : ∀ {v : PyLit}, numOk v = true → pyFloat v = some (numValD v)
  | .int _, _ => rfl
  | .float _, _ => rfl
  | .str _, h => by simp [numOk] at h
  | .bool _, h => by simp [numOk] at h
  | .none, h => by simp [numOk] at h
  | .list _, h => by simp [numOk] at h
  | .tuple _, h => by simp [numOk] at h

theorem convertItems_of_nums : ∀ items : List PyLit,
    (∀ it ∈ items, ∃ a b, it = PyLit.tuple [a, b] ∧ numOk a = true ∧ numOk b = true) →
    convertItems items = (items.map itemPoint, [])
  | [], _ => rfl
  | it :: rest, h => by
    obtain ⟨a, b, heq, ha, hb⟩ := h it (List.mem_cons_self it rest)
    subst heq
    have hrest := convertItems_of_nums rest (fun x hx => h x (List.mem_cons_of_mem _ hx))
    simp [convertItems, hrest, isPair, pyFloat_of_numOk ha, pyFloat_of_numOk hb, itemPoint]

theorem key_mem_tagged {rows : List PedRow} {ts : List Nat} {r : PedRow} {t : Nat}
    (hz : (r, t) ∈ rows.zip ts) :
    (r.segment_id, floor15 t) ∈ (taggedRows rows ts).map Prod.fst := by
  have hmem : ((r.segment_id, floor15 t), parse_id_list_from_string r.persons)
      ∈ taggedRows rows ts := by
    rw [taggedRows]
    exact List.mem_map_of_mem _ hz
  exact List.mem_map_of_mem Prod.fst hmem

/-! ### Claim theorems -/

/-- Claim C2, counterexample: on the exact input string of the claim the
token bad is a Name node, so ast.literal_eval rejects the whole literal with
ValueError; the function returns the empty point list with a single
whole-string parse-failure diagnostic, not the one-point sequence with a
skipped-element diagnostic that the claim asserts. -/
theorem C2_counterexample :
    parse_and_convert_coordinates (PyLit.str "[(18.07, 59.35), (18.08, bad)]") =
      .ok ([], [Diag.parseError "[(18.07, 59.35), (18.08, bad)]"]) ∧
    literal_eval "[(18.07, 59.35), (18.08, bad)]" = .error PyExcKind.valueError :=
  ⟨rfl, rfl⟩

/-- Claim C2 (corrected): when the malformed second component is itself a
valid literal, here the string constant written with double quotes, the list
parses and the malformed point alone is skipped: the result is exactly the
one-point sequence (59.35, 18.07) together with exactly one skipped-element
diagnostic. -/
theorem C2_amended_skip_one_element :
    parse_and_convert_coordinates (PyLit.str "[(18.07, 59.35), (18.08, \"bad\")]") =
      .ok ([(mkRat 1187 20, mkRat 1807 100)], [Diag.nonNumericElement]) :=
  rfl

/-- Claim C4: for every input string that is a valid literal encoding of a
list of 2-tuples of numerics, the function returns one point per tuple, in
order, each point being the pair (float of the second component, float of
the first component), with no diagnostics. -/
theorem C4_swap_preserve_order (s : String) (items : List PyLit)
    (heval : literal_eval s = .ok (PyLit.list items))
    (hnum : ∀ it ∈ items, ∃ a b, it = PyLit.tuple [a, b] ∧ numOk a = true ∧ numOk b = true) :
    parse_and_convert_coordinates (PyLit.str s) = .ok (items.map itemPoint, []) ∧
    (items.map itemPoint).length = items.length := by
  have hsp := literal_eval_ok_not_blank heval
  constructor
  · have hbody : parse_and_convert_body s = .ok (convertItems items) := by
      rw [parse_and_convert_body, heval]
    rw [parse_and_convert_coordinates]
    rw [if_neg (by rw [hsp]; exact Bool.false_ne_true)]
    rw [hbody, convertItems_of_nums items hnum]
  · rw [List.length_map]

/-- Witness for C4 at a concrete two-tuple list mixing float and int
components. -/
theorem C4_swap_preserve_order_witness :
    parse_and_convert_coordinates (PyLit.str "[(18.07, 59.35), (2, 3)]") =
      .ok ([(mkRat 1187 20, mkRat 1807 100), (mkRat 3 1, mkRat 2 1)], []) := by
  have h := (C4_swap_preserve_order "[(18.07, 59.35), (2, 3)]"
    [PyLit.tuple [PyLit.float (mkRat 1807 100), PyLit.float (mkRat 1187 20)],
     PyLit.tuple [PyLit.int 2, PyLit.int 3]] rfl ?hnum).1
  · exact h
  case hnum =>
    intro it hit
    rcases List.mem_cons.mp hit with h1 | h2
    · exact ⟨_, _, h1, rfl, rfl⟩
    · rcases List.mem_cons.mp h2 with h3 | h4
      · exact ⟨_, _, h3, rfl, rfl⟩
      · exact absurd h4 (List.not_mem_nil it)

/-- Claim C5: a blank-string or non-string coordinate cell yields the empty
point sequence with no diagnostics, and in the batch wrapper such a row is
neither a success (kept in the processed table) nor a parse failure (counted
and itemized). -/
theorem C5_blank_is_no_data :
    (∀ v : PyLit, (∀ s, v = PyLit.str s → s.toList.all isPySpace = true) →
      parse_and_convert_coordinates v = .ok ([], [])) ∧
    (∀ (rows : List PathRow) (r : PathRow), r ∈ rows →
      r.coordinates_str.toList.all isPySpace = true →
      row_locations r = [] ∧ r ∉ failed_parsing rows ∧ r ∉ processed_path rows) := by
  have hstr : ∀ s : String, s.toList.all isPySpace = true →
      parse_and_convert_coordinates (PyLit.str s) = .ok ([], []) := by
    intro s hs
    rw [parse_and_convert_coordinates, if_pos hs]
  constructor
  · intro v h
    cases v with
    | str s => exact hstr s (h s rfl)
    | int n => rfl
    | float q => rfl
    | bool b => rfl
    | none => rfl
    | list l => rfl
    | tuple l => rfl
  · intro rows r hm hsp
    have hloc : row_locations r = [] := by
      rw [row_locations, hstr r.coordinates_str hsp]
    refine ⟨hloc, ?_, ?_⟩
    · intro hmem
      have hp := (List.mem_filter.mp hmem).2
      rw [hsp] at hp
      simp at hp
    · intro hmem
      have hp := (List.mem_filter.mp hmem).2
      rw [hloc] at hp
      simp at hp

/-- Witness for C5: the empty string, a whitespace string and a None cell
all yield the empty result, and a whitespace row of a batch is in neither
the failure list nor the processed set. -/
theorem C5_blank_is_no_data_witness :
    parse_and_convert_coordinates (PyLit.str "") = .ok ([], []) ∧
    parse_and_convert_coordinates (PyLit.str " ") = .ok ([], []) ∧
    parse_and_convert_coordinates PyLit.none = .ok ([], []) ∧
    (⟨"7", " "⟩ : PathRow) ∉ failed_parsing [⟨"7", " "⟩] ∧
    (⟨"7", " "⟩ : PathRow) ∉ processed_path [⟨"7", " "⟩] := by
  refine ⟨?_, ?_, ?_, ?_, ?_⟩
  · exact C5_blank_is_no_data.1 (PyLit.str "")
      (fun s hs => by rw [← PyLit.str.inj hs]; rfl)
  · exact C5_blank_is_no_data.1 (PyLit.str " ")
      (fun s hs => by rw [← PyLit.str.inj hs]; rfl)
  · exact C5_blank_is_no_data.1 PyLit.none (fun s hs => PyLit.noConfusion hs)
  · exact (C5_blank_is_no_data.2 [⟨"7", " "⟩] ⟨"7", " "⟩
      (List.mem_singleton.mpr rfl) rfl).2.1
  · exact (C5_blank_is_no_data.2 [⟨"7", " "⟩] ⟨"7", " "⟩
      (List.mem_singleton.mpr rfl) rfl).2.2

/-- Claim C6: parse_and_convert_coordinates is total: on every input value
it returns a result; no exception escapes, because every exception kind the
body can raise is listed in the except clause. -/
theorem C6_no_exception_escapes :
    ∀ coord : PyLit, ∃ out, parse_and_convert_coordinates coord = Except.ok out := by
  intro coord
  cases coord with
  | str s =>
    rw [parse_and_convert_coordinates]
    by_cases hsp : s.toList.all isPySpace = true
    · rw [if_pos hsp]
      exact ⟨([], []), rfl⟩
    · rw [if_neg hsp]
      cases hb : parse_and_convert_body s with
      | ok r => exact ⟨r, rfl⟩
      | error e => cases e <;> exact ⟨_, rfl⟩
  | int n => exact ⟨([], []), rfl⟩
  | float q => exact ⟨([], []), rfl⟩
  | bool b => exact ⟨([], []), rfl⟩
  | none => exact ⟨([], []), rfl⟩
  | list l => exact ⟨([], []), rfl⟩
  | tuple l => exact ⟨([], []), rfl⟩

/-- Claim C9: the itemized failure list of the batch wrapper holds at most
10 entries and is exactly the first 10 failed rows; when more rows fail, the
reported overflow equals the total failure count minus 10. -/
theorem C9_failure_list_cap :
    ∀ rows : List PathRow,
      (displayed_failures rows).length ≤ 10 ∧
      displayed_failures rows = (failed_parsing rows).take 10 ∧
      (10 < num_failed rows →
        (displayed_failures rows).length = 10 ∧
        overflow_report rows = some (num_failed rows - 10)) := by
  intro rows
  refine ⟨?_, rfl, fun h => ⟨?_, ?_⟩⟩
  · rw [displayed_failures, List.length_take]
    exact min_le_left _ _
  · rw [displayed_failures, List.length_take]
    exact Nat.min_eq_left (Nat.le_of_lt h)
  · rw [overflow_report, if_pos h]

/-- Witness for C9 at a batch of 12 rows that all fail to parse: 10 itemized
entries and an overflow of 2. -/
theorem C9_failure_list_cap_witness :
    10 < num_failed (List.replicate 12 (⟨"1", "x"⟩ : PathRow)) ∧
    (displayed_failures (List.replicate 12 (⟨"1", "x"⟩ : PathRow))).length = 10 ∧
    overflow_report (List.replicate 12 (⟨"1", "x"⟩ : PathRow)) = some 2 := by
  have h : 10 < num_failed (List.replicate 12 (⟨"1", "x"⟩ : PathRow)) := by decide
  have h2 := (C9_failure_list_cap (List.replicate 12 (⟨"1", "x"⟩ : PathRow))).2.2 h
  exact ⟨h, h2.1, h2.2⟩

/-- Claim C1, counterexample: a table whose only row floors to the 09:15
bucket and carries an empty identifier list produces an output record for
that bucket with count 0; the zero-count group is present, not omitted. -/
theorem C1_counterexample :
    process_pedestrian_data_per_quarter_hour [⟨1, "09:20", PyLit.str "[]"⟩] =
      [⟨1, 555, 0⟩] ∧
    (⟨1, 555, 0⟩ : BucketRow).unique_pedestrian_count = 0 :=
  ⟨rfl, rfl⟩

/-- Claim C1 (corrected): a (segment_id, bucket_start) group whose
concatenated identifier list is empty still appears in the output, with
count 0; only (segment, bucket) pairs with no event row at all are absent
from the output. -/
theorem C1_amended_zero_bucket_present (rows : List PedRow) (ts : List Nat)
    (r : PedRow) (t : Nat) (hto : timesOf rows = some ts)
    (hz : (r, t) ∈ rows.zip ts)
    (hempty : ∀ x ∈ taggedRows rows ts,
      x.1 = (r.segment_id, floor15 t) → x.2 = ([] : List Int)) :
    (⟨r.segment_id, floor15 t, 0⟩ : BucketRow) ∈
      process_pedestrian_data_per_quarter_hour rows := by
  have hb := bucketFor_mem_process hto (key_mem_tagged hz)
  have heq : bucketFor (taggedRows rows ts) (r.segment_id, floor15 t) =
      ⟨r.segment_id, floor15 t, 0⟩ := by
    rw [bucketFor]
    have hnil : (groupLists (taggedRows rows ts) (r.segment_id, floor15 t)).flatten
        = [] := by
      apply flatten_eq_nil_of_all_nil
      intro l hl
      rw [groupLists] at hl
      obtain ⟨x, hx, hxl⟩ := List.mem_map.mp hl
      have hfx := List.mem_filter.mp hx
      rw [← hxl]
      exact hempty x hfx.1 (of_decide_eq_true hfx.2)
    rw [aggregate_unique_ids_eq_flatten_length, hnil]
    rfl
  rw [heq] at hb
  exact hb

/-- Witness for the corrected C1: the single-row table whose identifier list
is empty yields the bucket record (1, 09:15, 0) in the output. -/
theorem C1_amended_zero_bucket_present_witness :
    (⟨1, 555, 0⟩ : BucketRow) ∈
      process_pedestrian_data_per_quarter_hour [⟨1, "09:20", PyLit.str "[]"⟩] :=
  C1_amended_zero_bucket_present [⟨1, "09:20", PyLit.str "[]"⟩] [560]
    ⟨1, "09:20", PyLit.str "[]"⟩ 560 rfl (List.mem_singleton.mpr rfl)
    (fun x hx _ => by rw [List.mem_singleton.mp hx]; rfl)

/-- Claim C3, counterexample: a table holding one well-formed row (09:02,
ids [1, 2]) and one row with unparseable time text makes the whole batch
return the empty table; the well-formed row is not aggregated, contrary to
the claim of row-granular recovery. -/
theorem C3_counterexample :
    process_pedestrian_data_per_quarter_hour
      [⟨1, "09:02", PyLit.str "[1, 2]"⟩, ⟨1, "9h99", PyLit.str "[3]"⟩] = [] ∧
    parseTimeHM "09:02" = some 542 ∧
    parseTimeHM "9h99" = Option.none :=
  ⟨rfl, rfl, rfl⟩

/-- Claim C3 (corrected): time parsing is column-wide, so one unparseable
time-of-day cell makes the aggregator return the empty table for the whole
batch (caught by the generic handler, no exception escapes); well-formed
rows of that batch are lost. -/
theorem C3_amended_batch_granularity (rows : List PedRow) (r : PedRow)
    (hm : r ∈ rows) (hbad : parseTimeHM r.time_rounded = Option.none) :
    process_pedestrian_data_per_quarter_hour rows = [] := by
  rw [process_pedestrian_data_per_quarter_hour, timesOf_none rows r hm hbad]

/-- Witness for the corrected C3 at the two-row table of the
counterexample. -/
theorem C3_amended_batch_granularity_witness :
    process_pedestrian_data_per_quarter_hour
      [⟨1, "09:02", PyLit.str "[1, 2]"⟩, ⟨1, "9h99", PyLit.str "[3]"⟩] = [] :=
  C3_amended_batch_granularity _ ⟨1, "9h99", PyLit.str "[3]"⟩
    (List.mem_cons_of_mem _ (List.mem_cons_self _ _)) rfl

/-- Claim C7: every output record counts the total length of the
concatenation of the parsed identifier lists of its (segment_id,
bucket_start) group, duplicates included, despite the field name. -/
theorem C7_count_is_total_occurrences (rows : List PedRow) (ts : List Nat)
    (rec : BucketRow) (hto : timesOf rows = some ts)
    (hmem : rec ∈ process_pedestrian_data_per_quarter_hour rows) :
    rec.unique_pedestrian_count =
      ((groupLists (taggedRows rows ts)
        (rec.segment_id, rec.timestamp_quarter)).flatten).length := by
  rw [process_pedestrian_data_per_quarter_hour, hto] at hmem
  obtain ⟨k, hk, hrec⟩ := List.mem_map.mp hmem
  subst hrec
  simp only [bucketFor]
  rw [aggregate_unique_ids_eq_flatten_length]

/-- Witness for C7 at a group with duplicated identifiers: the reported
count is 4, the concatenation [1, 1, 1, 2], while only 2 identifiers are
distinct. -/
theorem C7_count_is_total_occurrences_witness :
    (⟨1, 540, 4⟩ : BucketRow).unique_pedestrian_count =
      ((groupLists (taggedRows
        [⟨1, "09:02", PyLit.str "[1, 1]"⟩, ⟨1, "09:05", PyLit.str "[1, 2]"⟩]
        [542, 545]) (1, 540)).flatten).length ∧
    (groupLists (taggedRows
        [⟨1, "09:02", PyLit.str "[1, 1]"⟩, ⟨1, "09:05", PyLit.str "[1, 2]"⟩]
        [542, 545]) (1, 540)).flatten = [1, 1, 1, 2] ∧
    ((groupLists (taggedRows
        [⟨1, "09:02", PyLit.str "[1, 1]"⟩, ⟨1, "09:05", PyLit.str "[1, 2]"⟩]
        [542, 545]) (1, 540)).flatten).dedup.length = 2 := by
  refine ⟨?_, rfl, rfl⟩
  exact C7_count_is_total_occurrences
    [⟨1, "09:02", PyLit.str "[1, 1]"⟩, ⟨1, "09:05", PyLit.str "[1, 2]"⟩]
    [542, 545] ⟨1, 540, 4⟩ rfl (List.mem_singleton.mpr rfl)

/-- Claim C8: every row whose time parses is keyed to the latest quarter-hour
boundary not after its time: the bucket start is a multiple of 15 minutes,
is at most the row time, exceeds it by less than 15, dominates every other
quarter boundary below the time, and a record with that key is present in
the output. -/
theorem C8_floor_to_quarter (rows : List PedRow) (ts : List Nat)
    (r : PedRow) (t : Nat) (hto : timesOf rows = some ts)
    (hz : (r, t) ∈ rows.zip ts) :
    parseTimeHM r.time_rounded = some t ∧
    floor15 t % 15 = 0 ∧ floor15 t ≤ t ∧ t < floor15 t + 15 ∧
    (∀ b, b % 15 = 0 → b ≤ t → b ≤ floor15 t) ∧
    ∃ rec ∈ process_pedestrian_data_per_quarter_hour rows,
      rec.segment_id = r.segment_id ∧ rec.timestamp_quarter = floor15 t := by
  refine ⟨timesOf_zip rows ts r t hto hz, ?_, ?_, ?_, ?_, ?_⟩
  · unfold floor15; omega
  · unfold floor15; omega
  · unfold floor15; omega
  · intro b hb hbt; unfold floor15; omega
  · exact ⟨bucketFor (taggedRows rows ts) (r.segment_id, floor15 t),
      bucketFor_mem_process hto (key_mem_tagged hz), rfl, rfl⟩

/-- Witness for C8 at the row (segment 1, 09:02): the bucket key is 09:00
(minute 540). -/
theorem C8_floor_to_quarter_witness :
    parseTimeHM "09:02" = some 542 ∧ floor15 542 = 540 ∧
    ∃ rec ∈ process_pedestrian_data_per_quarter_hour
        [⟨1, "09:02", PyLit.str "[1]"⟩],
      rec.segment_id = 1 ∧ rec.timestamp_quarter = floor15 542 := by
  have h := C8_floor_to_quarter [⟨1, "09:02", PyLit.str "[1]"⟩] [542]
    ⟨1, "09:02", PyLit.str "[1]"⟩ 542 rfl (List.mem_singleton.mpr rfl)
  exact ⟨h.1, rfl, h.2.2.2.2.2⟩

/-- Claim C10: identifier parsing fails at list granularity: a persons string
whose literal is a list with any element the int builtin rejects yields the
empty list (all identifiers of the row discarded, the valid ones included),
and a persons string whose literal is not a list also yields the empty
list. -/
theorem C10_list_granularity :
    (∀ (s : String) (ids : List PyLit), literal_eval s = .ok (PyLit.list ids) →
      (∃ x ∈ ids, pyInt x = Option.none) →
      parse_id_list_from_string (PyLit.str s) = []) ∧
    (∀ (s : String) (v : PyLit), literal_eval s = .ok v →
      (∀ l : List PyLit, v ≠ PyLit.list l) →
      parse_id_list_from_string (PyLit.str s) = []) := by
  constructor
  · intro s ids heval hex
    obtain ⟨x, hx, hnone⟩ := hex
    have hsp := literal_eval_ok_not_blank heval
    rw [parse_id_list_from_string]
    rw [if_neg (by rw [hsp]; exact Bool.false_ne_true)]
    simp only [heval, intsOf_none_of_mem ids x hx hnone]
  · intro s v heval hnl
    have hsp := literal_eval_ok_not_blank heval
    cases v with
    | list l => exact absurd rfl (hnl l)
    | int n =>
      rw [parse_id_list_from_string,
        if_neg (by rw [hsp]; exact Bool.false_ne_true), heval]
    | float q =>
      rw [parse_id_list_from_string,
        if_neg (by rw [hsp]; exact Bool.false_ne_true), heval]
    | str t =>
      rw [parse_id_list_from_string,
        if_neg (by rw [hsp]; exact Bool.false_ne_true), heval]
    | bool b =>
      rw [parse_id_list_from_string,
        if_neg (by rw [hsp]; exact Bool.false_ne_true), heval]
    | none =>
      rw [parse_id_list_from_string,
        if_neg (by rw [hsp]; exact Bool.false_ne_true), heval]
    | tuple l =>
      rw [parse_id_list_from_string,
        if_neg (by rw [hsp]; exact Bool.false_ne_true), heval]

/-- Witness for C10: a list with one non-convertible element loses the valid
identifiers 1 and 3 too, and a tuple literal yields the empty list. -/
theorem C10_list_granularity_witness :
    parse_id_list_from_string (PyLit.str "[1, \"a\", 3]") = [] ∧
    parse_id_list_from_string (PyLit.str "(1, 2)") = [] := by
  constructor
  · exact C10_list_granularity.1 "[1, \"a\", 3]"
      [PyLit.int 1, PyLit.str "a", PyLit.int 3] rfl
      ⟨PyLit.str "a", List.mem_cons_of_mem _ (List.mem_cons_self _ _), rfl⟩
  · exact C10_list_granularity.2 "(1, 2)" (PyLit.tuple [PyLit.int 1, PyLit.int 2])
      rfl (fun l h => PyLit.noConfusion h)
